import Mathlib

/-!
Verification of the dropout-segmentation analytics of the
next-step-learning-analytics repository.

The definitions below are a shallow embedding of:
* the PL/pgSQL function `analyze_course_dropout` and the views
  `v_course_summary` and `v_dropout_by_segment` from
  `src/backend/scripts/init_db.sql`;
* the dropout-reason percentage and peak-segment computations of
  `src/frontend/src/pages/DropoutPage.tsx`;
* the shared fetch wrapper `fetchApi` / `ApiError` of the frontend
  API service module.

SQL `FLOAT` progress values are modelled as `ℚ`; SQL `NUMERIC` results
that may be `NULL` (through `NULLIF`) are modelled as `Option ℚ`.
-/

namespace NextStep

/-- A row of the `learning_logs` table (the columns the analysis reads). -/
structure LearningLog where
  user_id : Nat
  course_id : Nat
  progress_percent : ℚ
  is_dropout : Bool
deriving DecidableEq, Repr

abbrev LogDb := List LearningLog

/-- Rows of `learning_logs` with `course_id = c`
(`WHERE course_id = p_course_id`). -/
def courseLogs (db : LogDb) (c : Nat) : List LearningLog :=
  db.filter (fun l => l.course_id == c)

/-- Distinct users having at least one log for course `c`
(the `GROUP BY user_id` of the `user_max_progress` CTE). -/
def courseUsers (db : LogDb) (c : Nat) : List Nat :=
  ((courseLogs db c).map (fun l => l.user_id)).dedup

/-- All `progress_percent` values logged by user `u` for course `c`. -/
def userProgresses (db : LogDb) (c : Nat) (u : Nat) : List ℚ :=
  ((courseLogs db c).filter (fun l => l.user_id == u)).map
    (fun l => l.progress_percent)

/-- `u.max_progress >= s`: for a user with at least one log this is
exactly "some log of `u` has `progress_percent ≥ s`"
(the join condition `u.max_progress >= s.seg_start`). -/
def reachedB (db : LogDb) (c : Nat) (u : Nat) (s : ℚ) : Bool :=
  (userProgresses db c u).any (fun p => decide (s ≤ p))

/-- User `u` has a log for course `c` flagged `is_dropout = TRUE` with
`progress_percent` in `[s, s+10)` (the `CASE` filter inside
`COUNT(DISTINCT ...)`). -/
def segDropoutB (db : LogDb) (c : Nat) (s : ℚ) (u : Nat) : Bool :=
  (courseLogs db c).any (fun l =>
    l.user_id == u && l.is_dropout &&
      decide (s ≤ l.progress_percent) && decide (l.progress_percent < s + 10))

/-- `users_reached`: `COUNT(DISTINCT u.user_id)` over the join of the
segment with `user_max_progress` on `u.max_progress >= s`. -/
def usersReached (db : LogDb) (c : Nat) (s : ℚ) : Nat :=
  ((courseUsers db c).filter (fun u => reachedB db c u s)).length

/-- `dropouts`: `COUNT(DISTINCT CASE WHEN ... THEN l.user_id END)`;
the logs are joined through `user_max_progress`, so only users that
reached the segment contribute. -/
def dropoutCount (db : LogDb) (c : Nat) (s : ℚ) : Nat :=
  ((courseUsers db c).filter
    (fun u => reachedB db c u s && segDropoutB db c s u)).length

/-- PostgreSQL `ROUND(x, 2)` on `NUMERIC` rounds half away from zero;
for the nonnegative values appearing here this agrees with
`⌊x * 100 + 1/2⌋ / 100`, i.e. with Mathlib's `round`. -/
def round2 (q : ℚ) : ℚ := (round (q * 100) : ℤ) / 100

/-- The `CASE` ladder classifying a (non-NULL) dropout rate. -/
def risk_level (r : ℚ) : String :=
  if 20 ≤ r then "critical"
  else if 15 ≤ r then "high"
  else if 10 ≤ r then "medium"
  else "low"

/-- Risk classification of a segment with `users_reached = n` and
`dropouts = d`.  When `n = 0` the SQL rate expression
`d / NULLIF(n, 0) * 100` is `NULL`, every `WHEN` comparison is unknown
and the `ELSE` branch yields `'low'`. -/
def segRiskLevel (n d : Nat) : String :=
  if n = 0 then "low"
  else risk_level ((d : ℚ) / (n : ℚ) * 100)

/-- `ROUND(d::numeric / NULLIF(n, 0) * 100, 2)`: `NULL` (here `none`)
when `n = 0`. -/
def segDropoutRate (n d : Nat) : Option ℚ :=
  if n = 0 then none
  else some (round2 ((d : ℚ) / (n : ℚ) * 100))

/-- One row of the table returned by `analyze_course_dropout`. -/
structure SegmentRow where
  segment_start : ℚ
  segment_end : ℚ
  users_reached : Nat
  dropout_count : Nat
  dropout_rate : Option ℚ
  risk_level : String
deriving DecidableEq, Repr

/-- `generate_series(0, 90, 10)`. -/
def segStarts : List ℚ := [0, 10, 20, 30, 40, 50, 60, 70, 80, 90]

/-- The row produced for the segment starting at `s`. -/
def analyzeSegment (db : LogDb) (c : Nat) (s : ℚ) : SegmentRow :=
  { segment_start := s
    segment_end := s + 10
    users_reached := usersReached db c s
    dropout_count := dropoutCount db c s
    dropout_rate := segDropoutRate (usersReached db c s) (dropoutCount db c s)
    risk_level := segRiskLevel (usersReached db c s) (dropoutCount db c s) }

/-- The PL/pgSQL function `analyze_course_dropout(p_course_id)`:
one row per segment start in `generate_series(0, 90, 10)`, ordered by
`seg_start`. -/
def analyze_course_dropout (db : LogDb) (c : Nat) : List SegmentRow :=
  segStarts.map (analyzeSegment db c)

/-! ## The view `v_dropout_by_segment`

The view groups the logs of a course by `FLOOR(progress_percent / 10)`
and only emits groups that contain at least one log; a log with
`progress_percent = 100` falls into the group `FLOOR(100/10)*10 = 100`. -/

/-- One row of `v_dropout_by_segment` (restricted to one course). -/
structure ViewSegRow where
  segment_start : ℤ
  segment_end : ℤ
  total_logs : Nat
  dropout_count : Nat
  dropout_rate : ℚ
deriving DecidableEq, Repr

/-- `FLOOR(l.progress_percent / 10) * 10`. -/
def viewSegOf (l : LearningLog) : ℤ := ⌊l.progress_percent / 10⌋ * 10

/-- The distinct group keys of the course's logs, ordered ascending
(`GROUP BY FLOOR(progress_percent / 10)` with `ORDER BY segment_start`). -/
def viewSegKeys (db : LogDb) (c : Nat) : List ℤ :=
  (((courseLogs db c).map viewSegOf).dedup).mergeSort (fun a b => decide (a ≤ b))

/-- The view `v_dropout_by_segment`, for the rows of course `c`. -/
def v_dropout_by_segment (db : LogDb) (c : Nat) : List ViewSegRow :=
  (viewSegKeys db c).map (fun s =>
    let grp := (courseLogs db c).filter (fun l => decide (viewSegOf l = s))
    let dc := (grp.filter (fun l => l.is_dropout)).length
    { segment_start := s
      segment_end := s + 10
      total_logs := grp.length
      dropout_count := dc
      dropout_rate := round2 ((dc : ℚ) / (grp.length : ℚ) * 100) })

/-! ## The view `v_course_summary` -/

/-- A row of the `enrollments` table (the columns the view reads). -/
structure Enrollment where
  user_id : Nat
  course_id : Nat
  status : String
deriving DecidableEq, Repr

/-- A row of the `courses` table (the columns the view reads). -/
structure Course where
  id : Nat
  is_active : Bool
deriving DecidableEq, Repr

/-- `COUNT(DISTINCT e.user_id)` over the enrollments of course `c`. -/
def courseEnrollUsers (es : List Enrollment) (c : Nat) : List Nat :=
  ((es.filter (fun e => e.course_id == c)).map (fun e => e.user_id)).dedup

/-- `COUNT(DISTINCT CASE WHEN e.status = st THEN e.user_id END)`. -/
def courseStatusUsers (es : List Enrollment) (c : Nat) (st : String) : List Nat :=
  ((es.filter (fun e => e.course_id == c && e.status == st)).map
    (fun e => e.user_id)).dedup

/-- `ROUND(part::numeric / NULLIF(total, 0) * 100, 2)`: `NULL` when the
course has no enrollments. -/
def summaryRate (part total : Nat) : Option ℚ :=
  if total = 0 then none
  else some (round2 ((part : ℚ) / (total : ℚ) * 100))

/-- One row of `v_course_summary`. -/
structure SummaryRow where
  course_id : Nat
  total_enrollments : Nat
  completions : Nat
  dropouts : Nat
  active_learners : Nat
  completion_rate : Option ℚ
  dropout_rate : Option ℚ
deriving DecidableEq, Repr

/-- The aggregates of `v_course_summary` for a single course `c`. -/
def courseSummaryRow (es : List Enrollment) (c : Nat) : SummaryRow :=
  { course_id := c
    total_enrollments := (courseEnrollUsers es c).length
    completions := (courseStatusUsers es c "completed").length
    dropouts := (courseStatusUsers es c "dropped").length
    active_learners := (courseStatusUsers es c "active").length
    completion_rate :=
      summaryRate (courseStatusUsers es c "completed").length
        (courseEnrollUsers es c).length
    dropout_rate :=
      summaryRate (courseStatusUsers es c "dropped").length
        (courseEnrollUsers es c).length }

/-- The view `v_course_summary`: one row per active course (the
`LEFT JOIN` keeps courses with no enrollments). -/
def v_course_summary (cs : List Course) (es : List Enrollment) :
    List SummaryRow :=
  (cs.filter (fun k => k.is_active)).map (fun k => courseSummaryRow es k.id)

/-! ## DropoutPage.tsx: dropout-reason percentages -/

/-- A dropout reason as delivered by the API (`reason`, `count`). -/
structure DropoutReason where
  reason : String
  count : Nat
deriving DecidableEq, Repr

/-- A reason enriched with its percentage. -/
structure ReasonWithPct where
  reason : String
  count : Nat
  percentage : ℚ
deriving DecidableEq, Repr

/-- `reasons.reduce((sum, r) => sum + r.count, 0)`. -/
def totalReasonCount (rs : List DropoutReason) : Nat :=
  rs.foldl (fun sum r => sum + r.count) 0

/-- `reasons.map(r => ({...r, percentage: total > 0 ? r.count / total * 100 : 0}))`. -/
def reasonsWithPercentage (rs : List DropoutReason) : List ReasonWithPct :=
  rs.map (fun r =>
    { reason := r.reason
      count := r.count
      percentage :=
        if 0 < totalReasonCount rs then
          (r.count : ℚ) / (totalReasonCount rs : ℚ) * 100
        else 0 })

/-! ## DropoutPage.tsx: peak dropout segment -/

/-- `dropoutRates = rawDropoutRates.map(rate => Math.round(rate))`;
for finite arguments `Math.round x = ⌊x + 1/2⌋`, which is Mathlib's
`round`. -/
def roundedRates (rates : List ℚ) : List ℤ := rates.map round

/-- `Math.max(...xs)` for a nonempty array (the empty case is guarded
by `isChartDataReady` in the page). -/
def listMax : List ℤ → ℤ
  | [] => 0
  | h :: t => t.foldl max h

/-- `maxDropoutRate = isChartDataReady ? Math.max(...dropoutRates) : 1`. -/
def maxDropoutRate (rates : List ℚ) : ℤ :=
  if rates.isEmpty then 1 else listMax (roundedRates rates)

/-- The index displayed as the peak dropout segment:
`dropoutRates.indexOf(maxDropoutRate)`. -/
def peakIndex (rates : List ℚ) : Nat :=
  (roundedRates rates).indexOf (maxDropoutRate rates)

/-! ## services/api.ts: the shared fetch wrapper -/

/-- The part of a `fetch` `Response` the wrapper reads.  `body` is the
value `response.json()` resolves to. -/
structure HttpResponse (T : Type) where
  ok : Bool
  status : Nat
  statusText : String
  body : T

/-- The `ApiError` class: message, HTTP status and status text. -/
structure ApiError where
  message : String
  status : Nat
  statusText : String
deriving DecidableEq, Repr

/-- The shared wrapper `fetchApi`: throw an `ApiError` built from the
response when `ok` is false, otherwise return the parsed JSON body. -/
def fetchApi {T : Type} (r : HttpResponse T) : Except ApiError T :=
  if !r.ok then
    Except.error
      { message := "API 요청 실패: " ++ r.statusText
        status := r.status
        statusText := r.statusText }
  else
    Except.ok r.body

/-! ## Helper lemmas -/

lemma length_filter_mono {α : Type} {p q : α → Bool} (l : List α)
    (h : ∀ x ∈ l, p x = true → q x = true) :
    (l.filter p).length ≤ (l.filter q).length := by
  rw [← List.countP_eq_length_filter, ← List.countP_eq_length_filter]
  exact List.countP_mono_left h

lemma reachedB_mono (db : LogDb) (c u : Nat) {s t : ℚ} (hst : s ≤ t)
    (h : reachedB db c u t = true) : reachedB db c u s = true := by
  simp only [reachedB, List.any_eq_true, decide_eq_true_eq] at h ⊢
  obtain ⟨p, hp, htp⟩ := h
  exact ⟨p, hp, le_trans hst htp⟩

lemma usersReached_antitone (db : LogDb) (c : Nat) {s t : ℚ} (hst : s ≤ t) :
    usersReached db c t ≤ usersReached db c s := by
  unfold usersReached
  exact length_filter_mono _ (fun u _ h => reachedB_mono db c u hst h)

lemma dropoutCount_le_usersReached (db : LogDb) (c : Nat) (s : ℚ) :
    dropoutCount db c s ≤ usersReached db c s := by
  unfold dropoutCount usersReached
  exact length_filter_mono _
    (fun u _ h => (Bool.and_eq_true _ _ |>.mp h).1)

lemma analyze_map_start (db : LogDb) (c : Nat) :
    (analyze_course_dropout db c).map SegmentRow.segment_start = segStarts := by
  simp [analyze_course_dropout, List.map_map, Function.comp_def, analyzeSegment]

lemma round_mono_q {a b : ℚ} (h : a ≤ b) : round a ≤ round b := by
  rw [round_eq, round_eq]
  exact Int.floor_mono (by linarith)

lemma round2_nonneg {q : ℚ} (h : 0 ≤ q) : 0 ≤ round2 q := by
  unfold round2
  apply div_nonneg _ (by norm_num)
  have : round ((0 : ℚ)) ≤ round (q * 100) := round_mono_q (by nlinarith)
  simpa using Int.cast_le.mpr this

lemma round2_le_100 {q : ℚ} (h : q ≤ 100) : round2 q ≤ 100 := by
  unfold round2
  rw [div_le_iff₀ (by norm_num : (0:ℚ) < 100)]
  have h1 : round (q * 100) ≤ round ((10000 : ℚ)) := round_mono_q (by nlinarith)
  have h2 : round ((10000 : ℚ)) = (10000 : ℤ) := by
    norm_num
  calc ((round (q * 100) : ℤ) : ℚ) ≤ ((10000 : ℤ) : ℚ) := by
        exact_mod_cast Int.cast_le.mpr (h2 ▸ h1)
    _ = 100 * 100 := by norm_num

/-! ## Claims about `analyze_course_dropout` -/

/-- C2: for every course, the `users_reached` values of the rows of
`analyze_course_dropout`, for the ten segments with starts
0, 10, …, 90 in that order, form a non-increasing sequence. -/
theorem C2_funnel_non_increasing (db : LogDb) (c : Nat) :
    List.Pairwise (fun a b => b.users_reached ≤ a.users_reached)
      (analyze_course_dropout db c) ∧
    (analyze_course_dropout db c).map SegmentRow.segment_start = segStarts := by
  constructor
  · rw [analyze_course_dropout, List.pairwise_map]
    have hp : List.Pairwise (fun a b : ℚ => a ≤ b) segStarts := by
      with_unfolding_all decide
    exact hp.imp (fun hab => usersReached_antitone db c hab)
  · exact analyze_map_start db c

/-- C9: in every row of `analyze_course_dropout`, `users_reached` is at
least `dropout_count`. -/
theorem C9_users_reached_ge_dropout_count (db : LogDb) (c : Nat)
    (row : SegmentRow) (h : row ∈ analyze_course_dropout db c) :
    row.dropout_count ≤ row.users_reached := by
  obtain ⟨s, _, rfl⟩ := List.mem_map.1 h
  exact dropoutCount_le_usersReached db c s

/-- Witness for C9: the segment `[0,10)` of a one-log database. -/
theorem C9_users_reached_ge_dropout_count_witness : (0 : Nat) ≤ 1 :=
  C9_users_reached_ge_dropout_count [⟨1, 1, 5, false⟩] 1
    { segment_start := 0, segment_end := 10, users_reached := 1,
      dropout_count := 0, dropout_rate := some 0, risk_level := "low" }
    (by with_unfolding_all decide)

/-- C1 counterexample: in the database with the single log
`(user 1, course 1, progress 5, no dropout)`, the segment `[10,20)` has
`users_reached = 0` and its `dropout_rate` is `NULL` (`none`), not `0`:
`NULLIF` turns the division into `NULL` rather than `0`. -/
theorem C1_counterexample :
    ((analyze_course_dropout [⟨1, 1, 5, false⟩] 1).get? 1).map
        SegmentRow.users_reached = some 0 ∧
    ((analyze_course_dropout [⟨1, 1, 5, false⟩] 1).get? 1).map
        SegmentRow.dropout_rate = some none ∧
    (none : Option ℚ) ≠ some 0 := by
  with_unfolding_all decide

/-- C1 amended: in every row of `analyze_course_dropout`, the
`dropout_rate` is `NULL` (`none`) whenever `users_reached = 0` — not the
value `0` — and whenever the rate is non-`NULL` it lies in `[0, 100]`. -/
theorem C1_rate_null_or_bounded (db : LogDb) (c : Nat) (row : SegmentRow)
    (h : row ∈ analyze_course_dropout db c) :
    (row.users_reached = 0 → row.dropout_rate = none) ∧
    (∀ r : ℚ, row.dropout_rate = some r → 0 ≤ r ∧ r ≤ 100) := by
  obtain ⟨s, _, rfl⟩ := List.mem_map.1 h
  constructor
  · intro h0
    have h0' : usersReached db c s = 0 := h0
    simp [analyzeSegment, segDropoutRate, h0']
  · intro r hr
    have hd := dropoutCount_le_usersReached db c s
    by_cases h0 : usersReached db c s = 0
    · simp [analyzeSegment, segDropoutRate, h0] at hr
    · have hn : 0 < usersReached db c s := Nat.pos_of_ne_zero h0
      simp only [analyzeSegment, segDropoutRate, h0, if_false, Option.some_inj] at hr
      have hq0 : (0 : ℚ) ≤
          (dropoutCount db c s : ℚ) / (usersReached db c s : ℚ) * 100 := by
        positivity
      have hq1 : (dropoutCount db c s : ℚ) / (usersReached db c s : ℚ) * 100
          ≤ 100 := by
        have hle : (dropoutCount db c s : ℚ) / (usersReached db c s : ℚ) ≤ 1 := by
          rw [div_le_one (by exact_mod_cast hn)]
          exact_mod_cast hd
        nlinarith
      exact hr ▸ ⟨round2_nonneg hq0, round2_le_100 hq1⟩

/-- Witness for C1 amended: segment `[0,10)` of a one-log database has
the non-`NULL` rate `0`, which is within bounds. -/
theorem C1_rate_null_or_bounded_witness : (0 : ℚ) ≤ 0 ∧ (0 : ℚ) ≤ 100 :=
  (C1_rate_null_or_bounded [⟨1, 1, 5, false⟩] 1
    { segment_start := 0, segment_end := 10, users_reached := 1,
      dropout_count := 0, dropout_rate := some 0, risk_level := "low" }
    (by with_unfolding_all decide)).2 0 rfl

/-- C3: the risk level of every analyzed segment with a non-`NULL` rate
is the pure function `risk_level` of its exact dropout rate
`dropout_count / users_reached * 100`, whose thresholds are evaluated
top-down with the first match winning: `≥ 20 → critical`,
`≥ 15 → high`, `≥ 10 → medium`, otherwise `low`; in particular rate
`20 → critical`, `14.9 → medium` and `9.99 → low`. -/
theorem C3_risk_classification (db : LogDb) (c : Nat) (row : SegmentRow)
    (hrow : row ∈ analyze_course_dropout db c) (hn : 0 < row.users_reached) :
    row.risk_level =
      risk_level ((row.dropout_count : ℚ) / (row.users_reached : ℚ) * 100) ∧
    (∀ r : ℚ, 20 ≤ r → risk_level r = "critical") ∧
    (∀ r : ℚ, r < 20 → 15 ≤ r → risk_level r = "high") ∧
    (∀ r : ℚ, r < 15 → 10 ≤ r → risk_level r = "medium") ∧
    (∀ r : ℚ, r < 10 → risk_level r = "low") ∧
    risk_level 20 = "critical" ∧
    risk_level (149 / 10) = "medium" ∧
    risk_level (999 / 100) = "low" := by
  refine ⟨?_, ?_, ?_, ?_, ?_, ?_, ?_, ?_⟩
  · obtain ⟨s, _, rfl⟩ := List.mem_map.1 hrow
    have hn' : usersReached db c s ≠ 0 := Nat.pos_iff_ne_zero.mp hn
    simp [analyzeSegment, segRiskLevel, hn']
  · intro r hcrit
    rw [risk_level, if_pos hcrit]
  · intro r h1 h2
    rw [risk_level, if_neg (by linarith), if_pos h2]
  · intro r h1 h2
    rw [risk_level, if_neg (by linarith), if_neg (by linarith), if_pos h2]
  · intro r h1
    rw [risk_level, if_neg (by linarith), if_neg (by linarith),
      if_neg (by linarith)]
  · rw [risk_level, if_pos (by norm_num)]
  · rw [risk_level, if_neg (by norm_num), if_neg (by norm_num),
      if_pos (by norm_num)]
  · rw [risk_level, if_neg (by norm_num), if_neg (by norm_num),
      if_neg (by norm_num)]

/-- Witness for C3: applied to the segment `[0,10)` of a one-log
database, whose `users_reached` is positive. -/
theorem C3_risk_classification_witness : risk_level 20 = "critical" :=
  (C3_risk_classification [⟨1, 1, 5, false⟩] 1
    { segment_start := 0, segment_end := 10, users_reached := 1,
      dropout_count := 0, dropout_rate := some 0, risk_level := "low" }
    (by with_unfolding_all decide) (by decide)).2.2.2.2.2.1

/-- C4 counterexample: on the database with the single log
`(user 1, course 1, progress 100)`, the view `v_dropout_by_segment`
produces exactly one segment and it starts at 100 — the fixed ten
segments `[0,10) … [90,100)` do not all appear, and a segment starting
at 100 does. -/
theorem C4_counterexample :
    (v_dropout_by_segment [⟨1, 1, 100, false⟩] 1).map ViewSegRow.segment_start
      = [100] := by
  with_unfolding_all decide

/-- C4 amended: the function `analyze_course_dropout` always produces
exactly the ten fixed segments with starts 0, 10, …, 90 in that order,
and a user with a log at progress 100 counts as having reached every
one of them (including the last); the auxiliary view
`v_dropout_by_segment`, however, only emits segments that contain logs
and places a log at progress 100 in a segment starting at 100. -/
theorem C4_fixed_segments (db : LogDb) (c u : Nat) (b : Bool)
    (hlog : ({ user_id := u, course_id := c, progress_percent := 100,
               is_dropout := b } : LearningLog) ∈ db) :
    (analyze_course_dropout db c).map SegmentRow.segment_start = segStarts ∧
    ∀ s ∈ segStarts, reachedB db c u s = true ∧ 0 < usersReached db c s := by
  refine ⟨analyze_map_start db c, ?_⟩
  intro s hs
  have hs100 : s ≤ 100 := by
    simp only [segStarts, List.mem_cons, List.not_mem_nil, or_false] at hs
    rcases hs with rfl | rfl | rfl | rfl | rfl | rfl | rfl | rfl | rfl | rfl <;>
      norm_num
  have hcl : (⟨u, c, 100, b⟩ : LearningLog) ∈ courseLogs db c :=
    List.mem_filter.2 ⟨hlog, by simp⟩
  have hfl : (⟨u, c, 100, b⟩ : LearningLog) ∈
      (courseLogs db c).filter (fun l => l.user_id == u) :=
    List.mem_filter.2 ⟨hcl, by simp⟩
  have hu100 : (100 : ℚ) ∈ userProgresses db c u := by
    unfold userProgresses
    exact List.mem_map.2 ⟨_, hfl, rfl⟩
  have hr : reachedB db c u s = true := by
    simp only [reachedB, List.any_eq_true, decide_eq_true_eq]
    exact ⟨100, hu100, hs100⟩
  refine ⟨hr, ?_⟩
  have hu' : u ∈ courseUsers db c := by
    unfold courseUsers
    exact List.mem_dedup.2 (List.mem_map.2 ⟨_, hcl, rfl⟩)
  exact List.length_pos_of_mem (List.mem_filter.2 ⟨hu', hr⟩)

/-- Witness for C4 amended: a user logged at progress 100 reaches the
last segment `[90,100)`. -/
theorem C4_fixed_segments_witness :
    reachedB [⟨7, 1, 100, true⟩] 1 7 90 = true ∧
    0 < usersReached [⟨7, 1, 100, true⟩] 1 90 :=
  (C4_fixed_segments [⟨7, 1, 100, true⟩] 1 7 true
    (by with_unfolding_all decide)).2 90 (by with_unfolding_all decide)

/-! ## Claims about `v_course_summary` -/

/-- C5 counterexample: an active course with zero enrollments yields a
summary row (no error is raised), but its `completion_rate` and
`dropout_rate` are `NULL` (`none`), not the value `0`. -/
theorem C5_counterexample :
    (v_course_summary [⟨1, true⟩] []).map SummaryRow.completion_rate
      = [none] ∧
    (v_course_summary [⟨1, true⟩] []).map SummaryRow.dropout_rate
      = [none] ∧
    (v_course_summary [⟨1, true⟩] []).map SummaryRow.total_enrollments
      = [0] ∧
    some (0 : ℚ) ≠ (none : Option ℚ) := by
  with_unfolding_all decide

/-- C5 amended: an active course with zero enrollments still yields a
summary row (all counts `0`, nothing raised), but its two rates are
`NULL` (`none`), not `0`. -/
theorem C5_empty_course (cs : List Course) (es : List Enrollment) (c : Nat)
    (hmem : (⟨c, true⟩ : Course) ∈ cs)
    (hempty : es.filter (fun e => e.course_id == c) = []) :
    courseSummaryRow es c ∈ v_course_summary cs es ∧
    courseSummaryRow es c =
      { course_id := c, total_enrollments := 0, completions := 0,
        dropouts := 0, active_learners := 0,
        completion_rate := none, dropout_rate := none } := by
  constructor
  · unfold v_course_summary
    exact List.mem_map.2 ⟨⟨c, true⟩, List.mem_filter.2 ⟨hmem, rfl⟩, rfl⟩
  · have hall : ∀ e ∈ es, ¬((e.course_id == c) = true) :=
      List.filter_eq_nil_iff.1 hempty
    have h1 : courseEnrollUsers es c = [] := by
      unfold courseEnrollUsers
      rw [hempty]
      rfl
    have h2 : ∀ st, courseStatusUsers es c st = [] := by
      intro st
      unfold courseStatusUsers
      have : es.filter (fun e => e.course_id == c && e.status == st) = [] :=
        List.filter_eq_nil_iff.2 (fun e he hc =>
          hall e he ((Bool.and_eq_true _ _ |>.mp hc).1))
      rw [this]
      rfl
    unfold courseSummaryRow
    rw [h1, h2, h2, h2]
    simp [summaryRate]

/-- Witness for C5 amended: one active course, no enrollments at all. -/
theorem C5_empty_course_witness :
    courseSummaryRow [] 1 =
      { course_id := 1, total_enrollments := 0, completions := 0,
        dropouts := 0, active_learners := 0,
        completion_rate := none, dropout_rate := none } :=
  (C5_empty_course [⟨1, true⟩] [] 1 (by with_unfolding_all decide) rfl).2

/-- C6: for a course with at least one enrollment, the summary's
`dropout_rate` is `dropped / total * 100` and `completion_rate` is
`completed / total * 100` (each rounded to two decimals), where the
three counts are the numbers of distinct users among the course's
Enrollment records — learning logs play no part. -/
theorem C6_summary_rates (es : List Enrollment) (c : Nat)
    (h : (courseEnrollUsers es c).length ≠ 0) :
    (courseSummaryRow es c).total_enrollments
      = (courseEnrollUsers es c).length ∧
    (courseSummaryRow es c).dropouts
      = (courseStatusUsers es c "dropped").length ∧
    (courseSummaryRow es c).completions
      = (courseStatusUsers es c "completed").length ∧
    (courseSummaryRow es c).dropout_rate =
      some (round2 (((courseStatusUsers es c "dropped").length : ℚ) /
        ((courseEnrollUsers es c).length : ℚ) * 100)) ∧
    (courseSummaryRow es c).completion_rate =
      some (round2 (((courseStatusUsers es c "completed").length : ℚ) /
        ((courseEnrollUsers es c).length : ℚ) * 100)) := by
  unfold courseSummaryRow summaryRate
  simp [h]

/-- Witness for C6: a single dropped enrollment. -/
theorem C6_summary_rates_witness :
    (courseSummaryRow [⟨1, 1, "dropped"⟩] 1).dropout_rate =
      some (round2 (((courseStatusUsers [⟨1, 1, "dropped"⟩] 1
        "dropped").length : ℚ) /
        ((courseEnrollUsers [⟨1, 1, "dropped"⟩] 1).length : ℚ) * 100)) :=
  (C6_summary_rates [⟨1, 1, "dropped"⟩] 1
    (by with_unfolding_all decide)).2.2.2.1

/-! ## Claims about the dropout-reason percentages -/

lemma foldl_count_eq (rs : List DropoutReason) :
    ∀ a : Nat, rs.foldl (fun sum r => sum + r.count) a
      = a + (rs.map (fun r => r.count)).sum := by
  induction rs with
  | nil => simp
  | cons r t ih =>
    intro a
    simp only [List.foldl_cons, List.map_cons, List.sum_cons, ih]
    omega

lemma totalReasonCount_eq_sum (rs : List DropoutReason) :
    totalReasonCount rs = (rs.map (fun r => r.count)).sum := by
  unfold totalReasonCount
  simpa using foldl_count_eq rs 0

/-- C7: each reason's percentage equals its count divided by the total
dropout count (the sum of all the reason counts) times 100; when that
total is positive the percentages sum to exactly 100, and when it is 0
every percentage is 0. -/
theorem C7_reason_percentages (rs : List DropoutReason) :
    (0 < totalReasonCount rs →
      (∀ x ∈ reasonsWithPercentage rs,
        x.percentage = (x.count : ℚ) / (totalReasonCount rs : ℚ) * 100) ∧
      ((reasonsWithPercentage rs).map ReasonWithPct.percentage).sum = 100) ∧
    (totalReasonCount rs = 0 →
      ∀ x ∈ reasonsWithPercentage rs, x.percentage = 0) := by
  constructor
  · intro hpos
    constructor
    · intro x hx
      obtain ⟨r, _, rfl⟩ := List.mem_map.1 hx
      simp [hpos]
    · have hT : ((totalReasonCount rs : ℚ)) ≠ 0 := by
        exact_mod_cast Nat.pos_iff_ne_zero.mp hpos
      have hmap : (reasonsWithPercentage rs).map ReasonWithPct.percentage
          = rs.map (fun r =>
              (r.count : ℚ) * (100 / (totalReasonCount rs : ℚ))) := by
        unfold reasonsWithPercentage
        rw [List.map_map]
        refine List.map_congr_left (fun r _ => ?_)
        simp only [Function.comp_apply, if_pos hpos]
        field_simp
      have hsum : (rs.map (fun r => (r.count : ℚ))).sum
          = (totalReasonCount rs : ℚ) := by
        rw [totalReasonCount_eq_sum, Nat.cast_list_sum, List.map_map]
        rfl
      rw [hmap, List.sum_map_mul_right, hsum]
      field_simp
  · intro h0 x hx
    obtain ⟨r, _, rfl⟩ := List.mem_map.1 hx
    simp [h0]

/-- Witness for C7: two reasons with counts 3 and 1; the percentages
sum to 100. -/
theorem C7_reason_percentages_witness :
    ((reasonsWithPercentage [⟨"too hard", 3⟩, ⟨"no time", 1⟩]).map
      ReasonWithPct.percentage).sum = 100 :=
  ((C7_reason_percentages [⟨"too hard", 3⟩, ⟨"no time", 1⟩]).1
    (by with_unfolding_all decide)).2

/-! ## Claims about the peak dropout segment -/

lemma le_foldl_max (t : List ℤ) (a : ℤ) : a ≤ t.foldl max a := by
  induction t generalizing a with
  | nil => simp
  | cons h tl ih => exact le_trans (le_max_left a h) (ih (max a h))

lemma mem_le_foldl_max (t : List ℤ) (a : ℤ) : ∀ x ∈ t, x ≤ t.foldl max a := by
  induction t generalizing a with
  | nil => simp
  | cons h tl ih =>
    intro x hx
    rcases List.mem_cons.1 hx with rfl | hx'
    · exact le_trans (le_max_right a x) (le_foldl_max tl (max a x))
    · exact ih (max a h) x hx'

lemma foldl_max_mem (t : List ℤ) (a : ℤ) :
    t.foldl max a = a ∨ t.foldl max a ∈ t := by
  induction t generalizing a with
  | nil => left; rfl
  | cons h tl ih =>
    simp only [List.foldl_cons]
    rcases ih (max a h) with heq | hmem
    · rcases max_choice a h with hm | hm
      · left; rw [heq, hm]
      · right; rw [heq, hm]; exact List.mem_cons_self h tl
    · right; exact List.mem_cons_of_mem h hmem

lemma listMax_mem {l : List ℤ} (h : l ≠ []) : listMax l ∈ l := by
  cases l with
  | nil => exact absurd rfl h
  | cons x t =>
    rcases foldl_max_mem t x with heq | hmem
    · rw [listMax, heq]; exact List.mem_cons_self x t
    · exact List.mem_cons_of_mem x hmem

lemma le_listMax {l : List ℤ} : ∀ x ∈ l, x ≤ listMax l := by
  cases l with
  | nil => simp
  | cons y t =>
    intro x hx
    rcases List.mem_cons.1 hx with rfl | hx'
    · exact le_foldl_max t x
    · exact mem_le_foldl_max t y x hx'

lemma get?_ne_of_lt_indexOf {l : List ℤ} {a : ℤ} {j : Nat}
    (h : j < List.indexOf a l) : l.get? j ≠ some a := by
  induction l generalizing j with
  | nil => simp
  | cons x t ih =>
    by_cases hxa : x = a
    · subst hxa
      rw [List.indexOf_cons_self] at h
      exact absurd h (Nat.not_lt_zero j)
    · cases j with
      | zero =>
        intro hc
        exact hxa (Option.some_inj.1 hc)
      | succ n =>
        rw [List.indexOf_cons_ne t hxa] at h
        rw [List.get?_cons_succ]
        exact ih (Nat.lt_of_succ_lt_succ h)

/-- C8 counterexample: with per-segment dropout rates `[10, 50]` and
dropout counts `[10, 5]`, the page's peak computation
(`dropoutRates.indexOf(Math.max(...dropoutRates))`) reports segment
index 1, whose dropout count 5 is smaller than segment 0's count 10 —
the reported peak is not the segment with the maximum `dropout_count`. -/
theorem C8_counterexample :
    peakIndex [(10 : ℚ), 50] = 1 ∧
    ([10, 5] : List Nat).get? (peakIndex [(10 : ℚ), 50]) = some 5 ∧
    ([10, 5] : List Nat).get? 0 = some 10 ∧
    (5 : Nat) < 10 := by
  with_unfolding_all decide

/-- C8 amended: the peak segment reported by the dropout page is the
segment with the maximum rounded `dropout_rate`; when several segments
share that maximum, the first such index — the segment with the lowest
start — is chosen (nothing in the computation looks at dropout counts). -/
theorem C8_peak_is_max_rounded_rate (rates : List ℚ) (h : rates ≠ []) :
    peakIndex rates < rates.length ∧
    (roundedRates rates).get? (peakIndex rates)
      = some (maxDropoutRate rates) ∧
    (∀ j r, (roundedRates rates).get? j = some r →
      r ≤ maxDropoutRate rates) ∧
    (∀ j, j < peakIndex rates →
      (roundedRates rates).get? j ≠ some (maxDropoutRate rates)) := by
  have hne : roundedRates rates ≠ [] := by
    intro hm
    exact h (List.map_eq_nil_iff.1 hm)
  have hmax : maxDropoutRate rates = listMax (roundedRates rates) := by
    unfold maxDropoutRate
    rw [if_neg]
    simpa [List.isEmpty_iff] using h
  have hmem : maxDropoutRate rates ∈ roundedRates rates :=
    hmax ▸ listMax_mem hne
  refine ⟨?_, ?_, ?_, ?_⟩
  · have hlt := List.indexOf_lt_length.2 hmem
    unfold peakIndex
    simpa [roundedRates] using hlt
  · exact List.indexOf_get? hmem
  · intro j r hj
    rw [hmax]
    exact le_listMax r (List.get?_mem hj)
  · intro j hj
    exact get?_ne_of_lt_indexOf hj

/-- Witness for C8 amended: on the rates `[10, 50]` the reported index
carries the maximal rounded rate. -/
theorem C8_peak_is_max_rounded_rate_witness :
    (roundedRates [(10 : ℚ), 50]).get? (peakIndex [(10 : ℚ), 50])
      = some (maxDropoutRate [(10 : ℚ), 50]) :=
  (C8_peak_is_max_rounded_rate [(10 : ℚ), 50] (by simp)).2.1

/-! ## Claim about the fetch wrapper -/

/-- C10: the shared fetch wrapper has exactly two outcomes: when the
response's `ok` is false it throws (returns `Except.error`) an
`ApiError` carrying the response's status and statusText and produces
no value, and otherwise it returns the parsed JSON body. -/
theorem C10_fetch_api_dichotomy {T : Type} (r : HttpResponse T) :
    (r.ok = false →
      fetchApi r = Except.error
        { message := "API 요청 실패: " ++ r.statusText,
          status := r.status, statusText := r.statusText }) ∧
    (r.ok = true → fetchApi r = Except.ok r.body) := by
  constructor <;> intro h <;> simp [fetchApi, h]

/-- Witness for C10: a 404 response throws the corresponding
`ApiError`. -/
theorem C10_fetch_api_dichotomy_witness :
    fetchApi ⟨false, 404, "Not Found", (0 : Nat)⟩ =
      Except.error { message := "API 요청 실패: " ++ "Not Found",
                     status := 404, statusText := "Not Found" } :=
  (C10_fetch_api_dichotomy ⟨false, 404, "Not Found", 0⟩).1 rfl

end NextStep
